import Mathlib

/-!
Verification development for the PS3838 betting bot (ps3838bot.py).

The file shallow-embeds the signal-extraction and validation pipeline:
`parse_message` (sport gate, team regex, title heuristic, bet-line regex,
stake and odds checks, fixture resolution, line validation),
`check_line_and_validate`, `place_bet`, and the `/sports` command handler.
Python regexes are embedded as hand-rolled backtracking matchers that follow
the Python `re` semantics (leftmost start, greedy/lazy preference order) for
the concrete patterns appearing in the source.  Python floats are idealised
as rationals; `round(x, 2)` is modelled as round-half-to-even on rationals.
-/

/-- Python `\s` character class (ASCII whitespace as used by `re`). -/
def pySpace (c : Char) : Bool :=
  c = ' ' || c = '\t' || c = '\n' || c = '\r' || c = Char.ofNat 11 || c = Char.ofNat 12

/-- Python regex `.` (any character except a newline). -/
def dotChar (c : Char) : Bool := c ≠ '\n'

/-- Python `str.strip()`. -/
def pyStrip (s : String) : String :=
  ⟨((s.data.dropWhile pySpace).reverse.dropWhile pySpace).reverse⟩

/-- Python `str.lower()` (ASCII). -/
def pyLower (s : String) : String := ⟨s.data.map Char.toLower⟩

/-- Python substring test `sub in hay`, on character lists. -/
def isSubstr (needle : List Char) : List Char → Bool
  | [] => needle.isEmpty
  | c :: t => needle.isPrefixOf (c :: t) || isSubstr needle t

/-- Python substring test `sub in hay` on strings. -/
def strContains (hay sub : String) : Bool := isSubstr sub.data hay.data

/-- Split a character list on newline characters. -/
def splitOnNl : List Char → List Char → List (List Char)
  | [], acc => [acc.reverse]
  | c :: t, acc => if c = '\n' then acc.reverse :: splitOnNl t [] else splitOnNl t (c :: acc)

/-- Python `str.splitlines()` for newline-delimited text. -/
def pySplitlines (s : String) : List String :=
  match s.data with
  | [] => []
  | l =>
    let l2 := if l.getLast? = some '\n' then l.dropLast else l
    (splitOnNl l2 []).map (fun cs => (⟨cs⟩ : String))

/-- Python `str.split()` (split on whitespace runs, dropping empties). -/
def splitWsAux : List Char → List Char → List (List Char)
  | [], acc => if acc.isEmpty then [] else [acc.reverse]
  | c :: t, acc =>
    if pySpace c then
      if acc.isEmpty then splitWsAux t [] else acc.reverse :: splitWsAux t []
    else splitWsAux t (c :: acc)

/-- Python `str.split()` on strings. -/
def pySplitWs (s : String) : List String :=
  (splitWsAux s.data []).map (fun cs => (⟨cs⟩ : String))

/-- Numeric value of a digit list (base 10), as a rational. -/
def digitsVal (l : List Char) : ℚ :=
  l.foldl (fun acc c => acc * 10 + ((c.toNat - 48 : ℕ) : ℚ)) 0

/-- Split a character list on a separator character. -/
def splitOnChar (sep : Char) : List Char → List Char → List (List Char)
  | [], acc => [acc.reverse]
  | c :: t, acc => if c = sep then acc.reverse :: splitOnChar sep t [] else splitOnChar sep t (c :: acc)

/-- Python `float()` on a string of digits and dots; `none` models ValueError. -/
def pyFloatQ (l : List Char) : Option ℚ :=
  if l.all (fun c => c.isDigit || c = '.') then
    match splitOnChar '.' l [] with
    | [ip] => if ip.isEmpty then none else some (digitsVal ip)
    | [ip, fp] =>
      if ip.isEmpty && fp.isEmpty then none
      else some (digitsVal ip + digitsVal fp / (10 : ℚ) ^ fp.length)
    | _ => none
  else none

/-- Python `float()` with an optional leading sign. -/
def pyFloatSigned (l : List Char) : Option ℚ :=
  match l with
  | '+' :: t => pyFloatQ t
  | '-' :: t => (pyFloatQ t).map Neg.neg
  | _ => pyFloatQ l

/-- Python `str.replace(",", ".")` on a character list. -/
def pyReplaceComma (l : List Char) : List Char :=
  l.map (fun c => if c = ',' then '.' else c)

/-- Python `round(x, 2)`: round half to even at two decimal places. -/
def pyRound2 (x : ℚ) : ℚ :=
  let y := x * 100
  let n : ℤ := ⌊y⌋
  let frac := y - (n : ℚ)
  let r : ℤ :=
    if frac < 1/2 then n
    else if 1/2 < frac then n + 1
    else if n % 2 = 0 then n else n + 1
  (r : ℚ) / 100

/-!
Matcher for `re.search(r"(.+)\s+vs\s+(.+)", text)`.

At a given start position the engine prefers the longest first group
(greedy `.+`), then the whitespace run before the literal `vs` is forced
(its final character must be `v`), then the whitespace run after `vs` is
taken greedily and backtracked only while the following `.+` has no
character to match, and the second group takes the maximal `.`-run.
-/

/-- Backtracking for the `\s+` after `vs`: greedy, descending run length. -/
def vsAway (u : List Char) : Nat → Option (List Char)
  | 0 => none
  | j + 1 =>
    match u.drop (j + 1) with
    | c :: _ => if dotChar c then some ((u.drop (j + 1)).takeWhile dotChar) else vsAway u j
    | [] => vsAway u j

/-- Match `\s+vs\s+(.+)` at the front of `t`, returning the second group. -/
def vsTail (t : List Char) : Option (List Char) :=
  let k := (t.takeWhile pySpace).length
  if k = 0 then none
  else
    match t.drop k with
    | 'v' :: 's' :: u =>
      let j := (u.takeWhile pySpace).length
      if j = 0 then none else vsAway u j
    | _ => none

/-- Greedy first group: try lengths descending from the maximal `.`-run. -/
def vsGroup1 (s : List Char) : Nat → Option (List Char × List Char)
  | 0 => none
  | e + 1 =>
    match vsTail (s.drop (e + 1)) with
    | some away => some (s.take (e + 1), away)
    | none => vsGroup1 s e

/-- Match `(.+)\s+vs\s+(.+)` anchored at the front of `s`. -/
def vsFrom (s : List Char) : Option (List Char × List Char) :=
  vsGroup1 s ((s.takeWhile dotChar).length)

/-- Search `(.+)\s+vs\s+(.+)` at the leftmost possible start position. -/
def vsSearch : List Char → Option (List Char × List Char)
  | [] => none
  | c :: t =>
    match vsFrom (c :: t) with
    | some r => some r
    | none => vsSearch t

/-- Match `\d{1,2}:\d{2}` anchored at the front of the list. -/
def clockAt : List Char → Bool
  | a :: ':' :: c :: d :: _ => a.isDigit && c.isDigit && d.isDigit
  | _ => false

/-- Match `\d\d:\d{2}` anchored at the front of the list. -/
def clockAt2 : List Char → Bool
  | a :: b :: ':' :: d :: e :: _ => a.isDigit && b.isDigit && d.isDigit && e.isDigit
  | _ => false

/-- Search `re.search(r"\d{1,2}:\d{2}", s)` as an existence test. -/
def hasClock : List Char → Bool
  | [] => false
  | c :: t => clockAt (c :: t) || clockAt2 (c :: t) || hasClock t

/-- Groups of the bet-line regex
`(ML Match|HDP Match)\s*:\s*(.+?)(?:\s+([+-]?\d+(?:\.\d+)?))?\s*@\s*([0-9.,]+)\s*\(([0-9.]+)\s*U\)`. -/
structure BetGroups where
  market : String
  selection : List Char
  handicap : Option (List Char)
  odds : List Char
  units : List Char

/-- Groups following the selection in the bet-line regex. -/
structure BetTail where
  selection : List Char
  handicap : Option (List Char)
  odds : List Char
  units : List Char

/-- Character class `[0-9.,]` of the odds group. -/
def oddsChar (c : Char) : Bool := c.isDigit || c = '.' || c = ','

/-- Character class `[0-9.]` of the stake-units group. -/
def unitChar (c : Char) : Bool := c.isDigit || c = '.'

/-- Match `\s*@\s*([0-9.,]+)\s*\(([0-9.]+)\s*U\)` at the front of `w`. -/
def oddsUnits (w : List Char) : Option (List Char × List Char) :=
  let a := (w.takeWhile pySpace).length
  match w.drop a with
  | '@' :: w1 =>
    let b := (w1.takeWhile pySpace).length
    let w2 := w1.drop b
    let od := w2.takeWhile oddsChar
    if od.isEmpty then none
    else
      let w3 := w2.drop od.length
      let cgap := (w3.takeWhile pySpace).length
      match w3.drop cgap with
      | '(' :: w4 =>
        let un := w4.takeWhile unitChar
        if un.isEmpty then none
        else
          let w5 := w4.drop un.length
          let d := (w5.takeWhile pySpace).length
          match w5.drop d with
          | 'U' :: ')' :: _ => some (od, un)
          | _ => none
      | _ => none
  | _ => none

/-- Match `\d+(?:\.\d+)?` at the front, returning the token and the rest. -/
def numAfterSign (w1 : List Char) : Option (List Char × List Char) :=
  let ds := w1.takeWhile Char.isDigit
  if ds.isEmpty then none
  else
    let r1 := w1.drop ds.length
    match r1 with
    | '.' :: r2 =>
      let fs := r2.takeWhile Char.isDigit
      if fs.isEmpty then some (ds, r1)
      else some (ds ++ '.' :: fs, r2.drop fs.length)
    | _ => some (ds, r1)

/-- Match `[+-]?\d+(?:\.\d+)?` at the front, returning the token and the rest. -/
def handicapNum : List Char → Option (List Char × List Char)
  | '+' :: t => (numAfterSign t).map (fun p => ('+' :: p.1, p.2))
  | '-' :: t => (numAfterSign t).map (fun p => ('-' :: p.1, p.2))
  | w => numAfterSign w

/-- The optional-handicap branch `(?:\s+([+-]?\d+(?:\.\d+)?))` followed by the odds part. -/
def handicapBranch (sel w : List Char) : Option BetTail :=
  let k := (w.takeWhile pySpace).length
  if k = 0 then none
  else
    match handicapNum (w.drop k) with
    | none => none
    | some (tok, rest) => (oddsUnits rest).map (fun p => ⟨sel, some tok, p.1, p.2⟩)

/-- The branch with the optional handicap group absent. -/
def noHandicapBranch (sel w : List Char) : Option BetTail :=
  (oddsUnits w).map (fun p => ⟨sel, none, p.1, p.2⟩)

/-- After a candidate selection: the optional group is tried present first. -/
def afterSel (sel w : List Char) : Option BetTail :=
  match handicapBranch sel w with
  | some r => some r
  | none => noHandicapBranch sel w

/-- Lazy `(.+?)`: try selection lengths ascending, bounded by the `.`-run. -/
def selTry (v : List Char) : Nat → Nat → Option BetTail
  | _, 0 => none
  | n, fuel + 1 =>
    match afterSel (v.take n) (v.drop n) with
    | some r => some r
    | none => selTry v (n + 1) fuel

/-- Match `(.+?)...` at the front of `v`. -/
def betSel (v : List Char) : Option BetTail :=
  selTry v 1 ((v.takeWhile dotChar).length)

/-- Greedy `\s*` before the lazy selection: descending run length, down to zero. -/
def betSelStart (u : List Char) : Nat → Option BetTail
  | 0 => betSel u
  | b + 1 =>
    match betSel (u.drop (b + 1)) with
    | some r => some r
    | none => betSelStart u b

/-- Match the full bet-line pattern anchored at the front of `s`. -/
def betFrom (s : List Char) : Option BetGroups :=
  let mk? : Option (String × List Char) :=
    if "ML Match".data.isPrefixOf s then some ("ML Match", s.drop 8)
    else if "HDP Match".data.isPrefixOf s then some ("HDP Match", s.drop 9)
    else none
  match mk? with
  | none => none
  | some (mkt, t) =>
    let a := (t.takeWhile pySpace).length
    match t.drop a with
    | ':' :: u =>
      match betSelStart u ((u.takeWhile pySpace).length) with
      | some tl => some ⟨mkt, tl.selection, tl.handicap, tl.odds, tl.units⟩
      | none => none
    | _ => none

/-- Search the bet-line pattern at the leftmost possible start position. -/
def betSearch : List Char → Option BetGroups
  | [] => none
  | c :: t =>
    match betFrom (c :: t) with
    | some g => some g
    | none => betSearch t

/-- Search `re.search(r"No bet under ([0-9.,]+)", text)`, returning the group. -/
def noBetUnder : List Char → Option (List Char)
  | [] => none
  | c :: t =>
    if "No bet under ".data.isPrefixOf (c :: t) then
      let run := ((c :: t).drop 13).takeWhile oddsChar
      if run.isEmpty then noBetUnder t else some run
    else noBetUnder t

/-!
Data model of the pipeline: the config record, the parsed signal dictionary
(`bet_info`), and the shapes of the fixtures / odds / line API responses.
Optional JSON keys are `Option`-typed; `dict.get` defaults are applied at
the read site, mirroring the source.
-/

/-- Opaque JSON values stored into `bet_info` but never inspected. -/
inductive JsonVal where
  | null
  | bool (b : Bool)
  | num (q : ℚ)
  | str (s : String)
  | arr (xs : List JsonVal)
  | obj (fields : List (String × JsonVal))

/-- The operator configuration (config.json). -/
structure Config where
  base_stake : ℚ
  min_stake : ℚ
  odds_tolerance : ℚ
  allow_tennis : Bool
  allow_football : Bool

/-- The `bet_info` dictionary built by `parse_message`; keys appended by later
stages are modelled as `Option` fields defaulting to `none`. -/
structure BetInfo where
  uuid : String
  sport : String
  sportId : Nat
  home : String
  away : String
  title : Option String
  market_type : String
  selection : String
  selection_type : String
  handicap : Option ℚ
  odds : ℚ
  stake : ℚ
  min_odds : ℚ
  eventId : Option Nat := none
  leagueId : Option Nat := none
  parentId : Option Nat := none
  lineId : Option Nat := none
  api_odds : Option ℚ := none
  altLineId : Option Nat := none
  cutoff : Option JsonVal := none
  spreads : Option JsonVal := none
  moneyline : Option JsonVal := none

/-- An event of the fixtures response. -/
structure Event where
  home : Option String
  away : Option String
  status : Option String
  id : Option Nat
  parentId : Option Nat

/-- A league of the fixtures response. -/
structure League where
  name : Option String
  id : Option Nat
  events : List Event

/-- The `/v3/fixtures` response body (key `league`, defaulting to `[]`). -/
structure FixturesData where
  league : List League

/-- The `/v2/line` response body; a `none` response models a non-200 status
or an empty body. -/
structure LineData where
  price : Option ℚ
  lineId : Option Nat
  altLineId : Option Nat

/-- A period of the `/v3/odds` response. -/
structure OddsPeriod where
  lineId : Option Nat
  cutoff : Option JsonVal
  spreads : Option JsonVal
  moneyline : Option JsonVal

/-- An event of the `/v3/odds` response. -/
structure OddsEvent where
  id : Option Nat
  periods : List OddsPeriod

/-- A league of the `/v3/odds` response (key `leagues`). -/
structure OddsLeague where
  events : List OddsEvent

/-- The `/v3/odds` response body. -/
structure OddsData where
  leagues : List OddsLeague

/-- Python truthiness of an optional integer (`None` and `0` are falsy). -/
def truthyN : Option Nat → Bool
  | none => false
  | some n => n ≠ 0

/-- Outcome of the pure text-parsing part of `parse_message` (lines 53-124):
each rejection constructor corresponds to one `return None` site or to a
raised `ValueError` from `float()`. -/
inductive ParseResult where
  | sportNotAllowed
  | noMatchPattern
  | noBetTemplate
  | valueError
  | stakeTooSmall
  | oddsBelowThreshold
  | ok (b : BetInfo)

/-- Sport classification by case-sensitive substring search (lines 54-58). -/
def sportOf (text : String) : String :=
  if strContains text "Tennis" then "Tennis"
  else if strContains text "Football" || strContains text "Soccer" then "Football"
  else "Other"

/-- The sport allow-gate of lines 60-62 (`true` means the message proceeds). -/
def sportGate (cfg : Config) (text : String) : Bool :=
  let sport := sportOf text
  !((sport == "Tennis" && !cfg.allow_tennis) ||
    (sport == "Football" && !cfg.allow_football) ||
    sport == "Other")

/-- Line 94: `handicap = float(handicap) if handicap else None`;
the outer `none` models a raised `ValueError`. -/
def handicapFloat : Option (List Char) → Option (Option ℚ)
  | none => some none
  | some hs => (pyFloatSigned hs).map some

/-- Lines 100-101: the optional `No bet under` clause; the outer `none`
models a raised `ValueError`. -/
def minOddsVal (text : String) : Option ℚ :=
  match noBetUnder text.data with
  | none => some 0
  | some ms => pyFloatQ (pyReplaceComma ms)

/-- The `bet_info` dictionary literal of lines 110-124. -/
def mkBet (cfg : Config) (u : String) (sport : String) (h a : List Char)
    (title : Option String) (g : BetGroups) (odds su : ℚ) (hc : Option ℚ) (m : ℚ) : BetInfo :=
  { uuid := u
    sport := sport
    sportId := if sport = "Tennis" then 33 else 29
    home := pyStrip ⟨h⟩
    away := pyStrip ⟨a⟩
    title := title
    market_type := g.market
    selection := pyStrip ⟨g.selection⟩
    selection_type := if pyStrip ⟨h⟩ = pyStrip ⟨g.selection⟩ then "home" else "away"
    handicap := hc
    odds := odds
    stake := pyRound2 (cfg.base_stake * su)
    min_odds := m }

/-- Extraction of the title line (lines 72-81). -/
def titleFromLines : List String → Option String
  | [] => none
  | l :: rest =>
    if (vsSearch l.data).isSome then
      match rest with
      | [] => none
      | nxt :: _ =>
        let cand := pyStrip nxt
        if hasClock cand.data then none else some cand
    else titleFromLines rest

/-- Title heuristic applied to the split message text. -/
def extractTitle (text : String) : Option String :=
  titleFromLines (pySplitlines text)

/-- The pure text-parsing part of `parse_message` (lines 53-124).  The
`uuid.uuid4()` call is modelled by the explicit parameter `u`. -/
def parseSignal (cfg : Config) (text : String) (u : String) : ParseResult :=
  if sportGate cfg text then
    match vsSearch text.data with
    | none => .noMatchPattern
    | some (h, a) =>
      match betSearch text.data with
      | none => .noBetTemplate
      | some g =>
        match pyFloatQ (pyReplaceComma g.odds) with
        | none => .valueError
        | some odds =>
          match pyFloatQ g.units with
          | none => .valueError
          | some su =>
            match handicapFloat g.handicap with
            | none => .valueError
            | some hc =>
              if cfg.base_stake * su < cfg.min_stake then .stakeTooSmall
              else
                match minOddsVal text with
                | none => .valueError
                | some m =>
                  if odds + cfg.odds_tolerance < m then .oddsBelowThreshold
                  else .ok (mkBet cfg u (sportOf text) h a (extractTitle text) g odds su hc m)
  else .sportNotAllowed

/-- Team comparison of the fixture-resolution loop in `parse_message`
(lines 160-161 and 169-170). -/
def teamOk (homeL awayL : String) (e : Event) : Bool :=
  (pyLower (pyStrip (e.home.getD "")) == homeL) && (pyLower (pyStrip (e.away.getD "")) == awayL)

/-- Inner event loop of the fixture resolution in `parse_message`
(lines 157-174): first match wins; the HDP branch additionally requires
`status == "O"`. -/
def findEvent1 (mt homeL awayL : String) : List Event → Option Event
  | [] => none
  | e :: rest =>
    if mt = "HDP Match" then
      if e.status == some "O" then
        if teamOk homeL awayL e then some e else findEvent1 mt homeL awayL rest
      else findEvent1 mt homeL awayL rest
    else
      if teamOk homeL awayL e then some e else findEvent1 mt homeL awayL rest

/-- Outer league loop of the fixture resolution in `parse_message`
(lines 154-177).  The state is `(event_id, league_id, parent_id)`.
A `none` title makes `bet_info["title"].lower()` raise `AttributeError`
on the first iteration, modelled by `.error ()`. -/
def resolveLoop1 (mt homeL awayL : String) (title : Option String) :
    List League → Option Nat × Option Nat × Option Nat →
    Except Unit (Option Nat × Option Nat × Option Nat)
  | [], st => .ok st
  | lg :: rest, st =>
    match title with
    | none => .error ()
    | some ti =>
      if pyLower (pyStrip (lg.name.getD "")) = pyLower ti then
        match findEvent1 mt homeL awayL lg.events with
        | some e =>
          if truthyN e.id then .ok (e.id, lg.id, e.parentId)
          else resolveLoop1 mt homeL awayL title rest (e.id, lg.id, e.parentId)
        | none =>
          if truthyN st.1 then .ok st
          else resolveLoop1 mt homeL awayL title rest st
      else resolveLoop1 mt homeL awayL title rest st

/-- The full `parse_message` (lines 53-236): text parsing, fixture
resolution, and the `/v2/line` validation.  The two network responses are
inputs (`none` models a non-200 status or empty body); the result is
`.error ()` when the Python code raises, and `.ok none` where it returns
`None`. -/
def parse_message (cfg : Config) (text : String) (u : String)
    (fx : Option FixturesData) (ln : Option LineData) : Except Unit (Option BetInfo) :=
  match parseSignal cfg text u with
  | .sportNotAllowed => .ok none
  | .noMatchPattern => .ok none
  | .noBetTemplate => .ok none
  | .valueError => .error ()
  | .stakeTooSmall => .ok none
  | .oddsBelowThreshold => .ok none
  | .ok bi =>
    match fx with
    | none => .ok none
    | some fd =>
      match resolveLoop1 bi.market_type (pyLower bi.home) (pyLower bi.away) bi.title
          fd.league (none, none, none) with
      | .error e => .error e
      | .ok (eid, lid, pid) =>
        if truthyN eid && truthyN lid then
          let bi1 := { bi with eventId := eid, leagueId := lid, parentId := pid }
          match ln with
          | none => .ok none
          | some ld =>
            let apiOdds := ld.price.getD 0
            if (apiOdds == 0) || !truthyN ld.lineId then .ok none
            else if apiOdds < bi1.min_odds then .ok none
            else
              let bi2 := { bi1 with
                lineId := ld.lineId
                api_odds := some apiOdds
                altLineId := ld.altLineId }
              .ok (some bi2)
        else .ok none

/-- Event predicate of the second resolution pass, inside
`check_line_and_validate` (lines 265-272): requires `parentId` defaulting
to `0` to equal `0`, plus the case-insensitive team match. -/
def teamOk2 (homeL awayL : String) (e : Event) : Bool :=
  (e.parentId.getD 0 == 0) &&
  (pyLower (pyStrip (e.home.getD "")) == homeL) &&
  (pyLower (pyStrip (e.away.getD "")) == awayL)

/-- League/event loop of `check_line_and_validate` (lines 260-278).  The
state is the mutated `bet_info` plus the local `event_id`; a `none` title
raises `AttributeError` on the first iteration (`.error ()`), which the
caller's `except` clause turns into `False`. -/
def resolveLoop2 (homeL awayL : String) (title : Option String) :
    List League → BetInfo × Option Nat → Except Unit (BetInfo × Option Nat)
  | [], st => .ok st
  | lg :: rest, st =>
    match title with
    | none => .error ()
    | some ti =>
      if pyLower (pyStrip (lg.name.getD "")) = pyLower ti then
        match lg.events.find? (teamOk2 homeL awayL) with
        | some e =>
          let bi2 := { st.1 with eventId := e.id }
          if truthyN e.id then .ok (bi2, e.id)
          else resolveLoop2 homeL awayL title rest (bi2, e.id)
        | none =>
          if truthyN st.2 then .ok st
          else resolveLoop2 homeL awayL title rest st
      else resolveLoop2 homeL awayL title rest st

/-- Step 3 of `check_line_and_validate` (lines 308-326): locate the event id
in the odds response, first hit wins. -/
def findOddsEvent : List OddsLeague → Option Nat → Option OddsEvent
  | [], _ => none
  | lg :: rest, eid =>
    match lg.events.find? (fun e => e.id == eid) with
    | some e => some e
    | none => findOddsEvent rest eid

/-- `check_line_and_validate` (lines 243-330).  Returns the mutated
`bet_info` together with the boolean result; every raised exception is
caught by the surrounding `try`/`except` and yields `False`. -/
def check_line_and_validate (bi : BetInfo) (fx : Option FixturesData)
    (od : Option OddsData) : BetInfo × Bool :=
  match fx with
  | none => (bi, false)
  | some fd =>
    match resolveLoop2 (pyLower bi.home) (pyLower bi.away) bi.title fd.league (bi, none) with
    | .error _ => (bi, false)
    | .ok (bi1, eid) =>
      if !truthyN eid then (bi1, false)
      else
        match od with
        | none => (bi1, false)
        | some odd =>
          match findOddsEvent odd.leagues bi1.eventId with
          | none => (bi1, false)
          | some ev =>
            match ev.periods with
            | [] => (bi1, false)
            | p :: _ =>
              let bi2 := { bi1 with
                lineId := p.lineId
                cutoff := p.cutoff
                spreads := some (p.spreads.getD (JsonVal.arr []))
                moneyline := some (p.moneyline.getD (JsonVal.obj [])) }
              (bi2, true)

/-- The `/v2/bets/place` request body built by `place_bet` (lines 341-359). -/
structure Payload where
  oddsFormat : String
  uniqueRequestId : String
  acceptBetterLine : Bool
  stake : ℚ
  winRiskStake : String
  lineId : Option Nat
  altLineId : Option Nat
  pitcher1MustStart : Bool
  pitcher2MustStart : Bool
  fillType : String
  sportId : Nat
  eventId : Option Nat
  periodNumber : Nat
  betType : String
  team : String
  side : Bool
  handicap : Option ℚ

/-- The payload dictionary literal of lines 341-359. -/
def mkPayload (bi : BetInfo) : Payload :=
  { oddsFormat := "DECIMAL"
    uniqueRequestId := bi.uuid
    acceptBetterLine := true
    stake := bi.stake
    winRiskStake := "RISK"
    lineId := bi.lineId
    altLineId := if bi.market_type = "ML Match" then none else bi.altLineId
    pitcher1MustStart := true
    pitcher2MustStart := true
    fillType := "NORMAL"
    sportId := bi.sportId
    eventId := bi.eventId
    periodNumber := 0
    betType := if bi.market_type = "ML Match" then "MONEYLINE" else "SPREAD"
    team := if bi.selection_type = "home" then "TEAM1" else "TEAM2"
    side := true
    handicap := if bi.market_type = "ML Match" then none else bi.handicap }

/-- `place_bet` (lines 335-362): run `check_line_and_validate` on the signal
and, only when it returns `True`, build the placement request from the
mutated `bet_info`. -/
def place_bet (bi : BetInfo) (fx : Option FixturesData) (od : Option OddsData) :
    Option Payload :=
  let r := check_line_and_validate bi fx od
  if r.2 then some (mkPayload r.1) else none

/-- The value `parse_message` hands back to its caller (`handler`):
`None` for every rejection path, the signal on success, and a propagated
exception for a raised error. -/
def isParseReject : ParseResult → Prop
  | .sportNotAllowed => True
  | .noMatchPattern => True
  | .noBetTemplate => True
  | .stakeTooSmall => True
  | .oddsBelowThreshold => True
  | .valueError => False
  | .ok _ => False

/-- The `/sports` command body (lines 423-438): updates the two allow
flags; `none` models the usage reply that leaves the config unchanged. -/
def sportsCommand (cfg : Config) (arg : String) : Option Config :=
  let choice := pyLower arg
  if choice = "tennis" then
    some { cfg with allow_tennis := true, allow_football := false }
  else if choice = "football" then
    some { cfg with allow_tennis := false, allow_football := true }
  else if choice = "both" then
    some { cfg with allow_tennis := true, allow_football := true }
  else none

/-- The command-dispatch path of `handler` restricted to `/sports`
(lines 393-398 and 423-438): strip the text, require a leading `/`,
split on whitespace, lowercase the command token. -/
def handleSports (cfg : Config) (text : String) : Option Config :=
  let t := pyStrip text
  if t.data.head? = some '/' then
    match pySplitWs t with
    | cmd :: arg :: _ =>
      if pyLower cmd = "/sports" then sportsCommand cfg arg else none
    | _ => none
  else none

/-!
Concrete inputs used by the witnesses and counterexamples below.
-/

/-- The default configuration of config.json. -/
def cfgD : Config := ⟨5, 5, 1/100, true, true⟩

/-- A configuration whose minimum stake is not a whole number of cents. -/
def cfg5 : Config := ⟨1251/250, 1251/250, 1/100, true, true⟩

/-- A configuration with odds tolerance 0.15. -/
def cfg6 : Config := ⟨5, 5, 3/20, true, true⟩

/-- The Scenario A message text, exactly as in the specification. -/
def scenarioAText : String :=
  "Roger Federer vs Rafael Nadal\nATP Masters\nML Match : Roger Federer @ 1.85 (2 U)"

/-- The Scenario A message text with a sport keyword line appended. -/
def scenarioATennis : String :=
  "Roger Federer vs Rafael Nadal\nATP Masters\nML Match : Roger Federer @ 1.85 (2 U)\nTennis"

/-- A tip whose unrounded stake equals the fractional minimum stake. -/
def text5 : String := "Tennis\nA vs B\nATP\nML Match : A @ 2 (1 U)"

/-- A tip with 0.1 stake units (stake 0.50, below the minimum). -/
def text5w : String := "Tennis\nA vs B\nATP\nML Match : A @ 2 (0.1 U)"

/-- A tip with a `No bet under 2` clause and quoted odds 1.85. -/
def text6 : String := "Tennis\nA vs B\nATP\nML Match : A @ 1.85 (2 U)\nNo bet under 2"

/-- A tip whose selection differs from the home team only by letter case. -/
def text7 : String :=
  "Tennis\nRoger Federer vs Rafael Nadal\nATP\nML Match : ROGER FEDERER @ 1.85 (2 U)"

/-- A tip whose title line is a clock time, leaving the title unset. -/
def text8 : String :=
  "Tennis\nRoger Federer vs Rafael Nadal\n18:30\nML Match : Roger Federer @ 1.85 (2 U)"

/-- A tip with no sport keyword at all. -/
def text9a : String := "A vs B\nATP\nML Match : A @ 2 (2 U)"

/-- A nonempty fixtures response with no matching league. -/
def fx9 : Option FixturesData := some ⟨[⟨some "Liga", some 4, []⟩]⟩

/-- The bet-line groups of `text5w`. -/
def g5 : BetGroups := ⟨"ML Match", "A".data, none, "2".data, "0.1".data⟩

/-- The bet-line groups of `text6`. -/
def g6 : BetGroups := ⟨"ML Match", "A".data, none, "1.85".data, "2".data⟩

/-- The signal parsed from `scenarioATennis`. -/
def betScenarioA : BetInfo :=
  { uuid := "u"
    sport := "Tennis"
    sportId := 33
    home := "Roger Federer"
    away := "Rafael Nadal"
    title := some "ATP Masters"
    market_type := "ML Match"
    selection := "Roger Federer"
    selection_type := "home"
    handicap := none
    odds := 37/20
    stake := 10
    min_odds := 0 }

/-- A fixtures response resolving `betScenarioA` to event 5 in league 3. -/
def fxW : Option FixturesData :=
  some ⟨[⟨some "ATP Masters", some 3,
    [⟨some "Roger Federer", some "Rafael Nadal", some "O", some 5, none⟩]⟩]⟩

/-- A line response with price 1.9, lineId 111, altLineId 9. -/
def lnW : Option LineData := some ⟨some (19/10), some 111, some 9⟩

/-- The fully resolved and line-validated signal for `scenarioATennis`. -/
def betResolvedA : BetInfo :=
  { betScenarioA with
    eventId := some 5
    leagueId := some 3
    parentId := none
    lineId := some 111
    api_odds := some (19/10)
    altLineId := some 9 }

/-- The signal parsed from `text5` under `cfg5`. -/
def bet5 : BetInfo :=
  { uuid := "u"
    sport := "Tennis"
    sportId := 33
    home := "A"
    away := "B"
    title := some "ATP"
    market_type := "ML Match"
    selection := "A"
    selection_type := "home"
    handicap := none
    odds := 2
    stake := 5
    min_odds := 0 }

/-- The signal parsed from `text7`. -/
def bet7 : BetInfo :=
  { uuid := "u"
    sport := "Tennis"
    sportId := 33
    home := "Roger Federer"
    away := "Rafael Nadal"
    title := some "ATP"
    market_type := "ML Match"
    selection := "ROGER FEDERER"
    selection_type := "away"
    handicap := none
    odds := 37/20
    stake := 10
    min_odds := 0 }

/-- The signal parsed from `text8` (its title is unset). -/
def bet8 : BetInfo :=
  { uuid := "u"
    sport := "Tennis"
    sportId := 33
    home := "Roger Federer"
    away := "Rafael Nadal"
    title := none
    market_type := "ML Match"
    selection := "Roger Federer"
    selection_type := "home"
    handicap := none
    odds := 37/20
    stake := 10
    min_odds := 0 }

/-- A fixtures response with one league, triggering the title crash of C8. -/
def fx8 : Option FixturesData := some ⟨[⟨some "ATP", some 1, []⟩]⟩

/-- An event with a nonzero `parentId` and a non-open status. -/
def cex3_event : Event := ⟨some "Roger Federer", some "Rafael Nadal", some "I", some 99, some 55⟩

/-- A league containing only `cex3_event`. -/
def cex3_league : League := ⟨some "ATP", some 7, [cex3_event]⟩

/-- A signal that already carries parse-time validated ids (eventId 5,
lineId 111) when handed to `place_bet`. -/
def bi2 : BetInfo :=
  { uuid := "u2"
    sport := "Tennis"
    sportId := 33
    home := "Roger Federer"
    away := "Rafael Nadal"
    title := some "ATP Masters"
    market_type := "ML Match"
    selection := "Roger Federer"
    selection_type := "home"
    handicap := none
    odds := 37/20
    stake := 10
    min_odds := 0
    eventId := some 5
    leagueId := some 3
    parentId := none
    lineId := some 111
    api_odds := some (19/10)
    altLineId := some 9 }

/-- A fixtures response in which the fresh lookup resolves to event 7. -/
def fx2 : Option FixturesData :=
  some ⟨[⟨some "ATP Masters", some 3,
    [⟨some "Roger Federer", some "Rafael Nadal", some "O", some 7, none⟩]⟩]⟩

/-- An odds response in which event 7 has lineId 222. -/
def od2 : Option OddsData := some ⟨[⟨[⟨some 7, [⟨some 222, none, none, none⟩]⟩]⟩]⟩

/-- The placement request produced by `place_bet bi2 fx2 od2`. -/
def payload2 : Payload :=
  { oddsFormat := "DECIMAL"
    uniqueRequestId := "u2"
    acceptBetterLine := true
    stake := 10
    winRiskStake := "RISK"
    lineId := some 222
    altLineId := none
    pitcher1MustStart := true
    pitcher2MustStart := true
    fillType := "NORMAL"
    sportId := 33
    eventId := some 7
    periodNumber := 0
    betType := "MONEYLINE"
    team := "TEAM1"
    side := true
    handicap := none }

/-!
Shared lemmas about the parsing stage.
-/

/-- Reduction of `parseSignal` once the sport gate, the team regex, the
bet-line regex and the numeric conversions are known to succeed. -/
theorem parseSignal_spec (cfg : Config) (text u : String)
    (hgate : sportGate cfg text = true)
    (h a : List Char) (hvs : vsSearch text.data = some (h, a))
    (g : BetGroups) (hbet : betSearch text.data = some g)
    (o : ℚ) (ho : pyFloatQ (pyReplaceComma g.odds) = some o)
    (su : ℚ) (hsu : pyFloatQ g.units = some su)
    (hc : Option ℚ) (hhc : handicapFloat g.handicap = some hc) :
    parseSignal cfg text u =
      if cfg.base_stake * su < cfg.min_stake then ParseResult.stakeTooSmall
      else
        match minOddsVal text with
        | none => ParseResult.valueError
        | some m =>
          if o + cfg.odds_tolerance < m then ParseResult.oddsBelowThreshold
          else ParseResult.ok (mkBet cfg u (sportOf text) h a (extractTitle text) g o su hc m) := by
  unfold parseSignal
  simp only [hgate, hvs, hbet, ho, hsu, hhc, if_true]

/-- Inversion: a successfully parsed signal is the `bet_info` record built
from the extracted groups. -/
theorem parseSignal_ok_inv (cfg : Config) (text u : String) (b : BetInfo)
    (hres : parseSignal cfg text u = ParseResult.ok b) :
    ∃ h a g o su hc m,
      vsSearch text.data = some (h, a) ∧
      betSearch text.data = some g ∧
      pyFloatQ (pyReplaceComma g.odds) = some o ∧
      pyFloatQ g.units = some su ∧
      handicapFloat g.handicap = some hc ∧
      minOddsVal text = some m ∧
      b = mkBet cfg u (sportOf text) h a (extractTitle text) g o su hc m := by
  unfold parseSignal at hres
  cases hg : sportGate cfg text with
  | false => rw [hg] at hres; simp at hres
  | true =>
    rw [hg] at hres
    simp only [if_true] at hres
    rcases hvs : vsSearch text.data with _ | ⟨h, a⟩ <;> simp only [hvs] at hres
    · simp at hres
    rcases hbet : betSearch text.data with _ | g <;> simp only [hbet] at hres
    · simp at hres
    rcases ho : pyFloatQ (pyReplaceComma g.odds) with _ | o <;> simp only [ho] at hres
    · simp at hres
    rcases hsu : pyFloatQ g.units with _ | su <;> simp only [hsu] at hres
    · simp at hres
    rcases hhc : handicapFloat g.handicap with _ | hc <;> simp only [hhc] at hres
    · simp at hres
    by_cases hst : cfg.base_stake * su < cfg.min_stake
    · rw [if_pos hst] at hres; simp at hres
    rw [if_neg hst] at hres
    rcases hm : minOddsVal text with _ | m <;> simp only [hm] at hres
    · simp at hres
    by_cases hod : o + cfg.odds_tolerance < m
    · rw [if_pos hod] at hres; simp at hres
    rw [if_neg hod] at hres
    cases hres
    exact ⟨h, a, g, o, su, hc, m, rfl, rfl, ho, hsu, hhc, rfl, rfl⟩

/-- A successfully parsed signal carries the uuid it was created with. -/
theorem parseSignal_uuid (cfg : Config) (text u : String) (b : BetInfo)
    (hres : parseSignal cfg text u = ParseResult.ok b) : b.uuid = u := by
  obtain ⟨h, a, g, o, su, hc, m, _, _, _, _, _, _, hb⟩ := parseSignal_ok_inv cfg text u b hres
  subst hb
  rfl

/-- Every parse rejection makes `parse_message` return `None` to its caller,
independently of the network responses. -/
theorem parse_message_reject (cfg : Config) (text u : String)
    (fx : Option FixturesData) (ln : Option LineData)
    (hrej : isParseReject (parseSignal cfg text u)) :
    parse_message cfg text u fx ln = Except.ok none := by
  unfold parse_message
  rcases hr : parseSignal cfg text u with _ | _ | _ | _ | _ | _ | b <;>
    rw [hr] at hrej <;> simp [isParseReject] at hrej ⊢

/-- The second resolution pass only ever writes the `eventId` field, so the
uuid of the threaded `bet_info` is preserved. -/
theorem resolveLoop2_uuid (homeL awayL : String) (ti : String) :
    ∀ (lgs : List League) (bi : BetInfo) (eid : Option Nat) (r : BetInfo × Option Nat),
      resolveLoop2 homeL awayL (some ti) lgs (bi, eid) = Except.ok r → r.1.uuid = bi.uuid := by
  intro lgs
  induction lgs with
  | nil =>
    intro bi eid r hr
    unfold resolveLoop2 at hr
    cases hr
    rfl
  | cons lg rest ih =>
    intro bi eid r hr
    unfold resolveLoop2 at hr
    simp only at hr
    by_cases hname : pyLower (pyStrip (lg.name.getD "")) = pyLower ti
    · rw [if_pos hname] at hr
      rcases hf : lg.events.find? (teamOk2 homeL awayL) with _ | e <;> simp only [hf] at hr
      · by_cases htr : truthyN eid = true
        · simp only [htr, if_true] at hr
          cases hr
          rfl
        · simp only [Bool.not_eq_true] at htr
          simp only [htr, Bool.false_eq_true, if_false] at hr
          exact ih bi eid r hr
      · by_cases htr : truthyN e.id = true
        · simp only [htr, if_true] at hr
          cases hr
          rfl
        · simp only [Bool.not_eq_true] at htr
          simp only [htr, Bool.false_eq_true, if_false] at hr
          exact ih { bi with eventId := e.id } e.id r hr
    · rw [if_neg hname] at hr
      exact ih bi eid r hr

/-- `check_line_and_validate` never changes the uuid of the signal. -/
theorem check_uuid (bi : BetInfo) (fx : Option FixturesData) (od : Option OddsData) :
    (check_line_and_validate bi fx od).1.uuid = bi.uuid := by
  unfold check_line_and_validate
  rcases fx with _ | fd
  · rfl
  simp only
  rcases hr : resolveLoop2 (pyLower bi.home) (pyLower bi.away) bi.title fd.league (bi, none)
      with e | pr
  · rfl
  obtain ⟨bi1, eid⟩ := pr
  have hu : bi1.uuid = bi.uuid := by
    rcases bi_title : bi.title with _ | ti
    · rw [bi_title] at hr
      rcases hl : fd.league with _ | ⟨lg, rest⟩ <;> rw [hl] at hr
      · unfold resolveLoop2 at hr
        cases hr
        rfl
      · unfold resolveLoop2 at hr
        simp only at hr
        cases hr
    · rw [bi_title] at hr
      exact resolveLoop2_uuid (pyLower bi.home) (pyLower bi.away) ti fd.league bi none
        (bi1, eid) hr
  simp only
  split
  · exact hu
  rcases od with _ | odd
  · exact hu
  simp only
  rcases findOddsEvent odd.leagues bi1.eventId with _ | ev
  · exact hu
  simp only
  rcases ev.periods with _ | ⟨p, ps⟩
  · exact hu
  · exact hu

/-- C4: the requestId (uuid) is generated exactly once at parse time (the
`u` parameter of `parseSignal`), every signal returned by `parse_message`
still carries it, `check_line_and_validate` never overwrites it, and the
placement request uses it verbatim as `uniqueRequestId`. -/
theorem c4_requestId_stable :
    (∀ (cfg : Config) (text u : String) (fx : Option FixturesData) (ln : Option LineData)
        (b : BetInfo), parse_message cfg text u fx ln = Except.ok (some b) → b.uuid = u) ∧
    (∀ (bi : BetInfo) (fx : Option FixturesData) (od : Option OddsData),
        (check_line_and_validate bi fx od).1.uuid = bi.uuid) ∧
    (∀ (bi : BetInfo) (fx : Option FixturesData) (od : Option OddsData) (p : Payload),
        place_bet bi fx od = some p → p.uniqueRequestId = bi.uuid) := by
  refine ⟨?_, check_uuid, ?_⟩
  · intro cfg text u fx ln b hpm
    unfold parse_message at hpm
    rcases hr : parseSignal cfg text u with _ | _ | _ | _ | _ | _ | bi <;>
      simp only [hr] at hpm
    · simp at hpm
    · simp at hpm
    · simp at hpm
    · simp at hpm
    · simp at hpm
    · simp at hpm
    · have hbu : bi.uuid = u := parseSignal_uuid cfg text u bi hr
      rcases fx with _ | fd
      · simp at hpm
      simp only at hpm
      rcases hres : resolveLoop1 bi.market_type (pyLower bi.home) (pyLower bi.away) bi.title
          fd.league (none, none, none) with e | tr <;> simp only [hres] at hpm
      · simp at hpm
      obtain ⟨eid, lid, pid⟩ := tr
      simp only at hpm
      split at hpm
      · rcases ln with _ | ld
        · simp at hpm
        simp only at hpm
        split at hpm
        · simp at hpm
        split at hpm
        · simp at hpm
        · cases hpm
          exact hbu
      · simp at hpm
  · intro bi fx od p hp
    unfold place_bet at hp
    simp only at hp
    split at hp
    next => cases hp; exact check_uuid bi fx od
    next => simp at hp

/-- C2 (amended): the placement request carries the lineId and eventId
captured by the fresh fixtures/odds lookup that `place_bet` runs through
`check_line_and_validate` immediately before submission; these overwrite
the values captured at parse-time line validation. -/
theorem c2_amended :
    ∀ (bi : BetInfo) (fx : Option FixturesData) (od : Option OddsData) (p : Payload),
      place_bet bi fx od = some p →
      (check_line_and_validate bi fx od).2 = true ∧
      p.lineId = (check_line_and_validate bi fx od).1.lineId ∧
      p.eventId = (check_line_and_validate bi fx od).1.eventId := by
  intro bi fx od p hp
  unfold place_bet at hp
  simp only at hp
  split at hp
  next hcv => cases hp; exact ⟨hcv, rfl, rfl⟩
  next => simp at hp

/-- C9 (amended): any two messages rejected by the parsing stage produce
identical values at the caller (`None` in both cases), whatever the
rejection reasons were; the reasons are not distinguishable from the
returned results. -/
theorem c9_amended :
    ∀ (cfg : Config) (u1 u2 t1 t2 : String) (fx1 fx2 : Option FixturesData)
      (ln1 ln2 : Option LineData),
      isParseReject (parseSignal cfg t1 u1) → isParseReject (parseSignal cfg t2 u2) →
      parse_message cfg t1 u1 fx1 ln1 = parse_message cfg t2 u2 fx2 ln2 := by
  intro cfg u1 u2 t1 t2 fx1 fx2 ln1 ln2 h1 h2
  rw [parse_message_reject cfg t1 u1 fx1 ln1 h1, parse_message_reject cfg t2 u2 fx2 ln2 h2]

/-- C10: `/sports tennis` enables tennis and disables football,
`/sports football` does the opposite, `/sports both` enables both, and
among the accepted arguments only `both` leaves both flags set. -/
theorem c10_sports_command :
    ∀ cfg : Config,
      sportsCommand cfg "tennis" = some { cfg with allow_tennis := true, allow_football := false } ∧
      sportsCommand cfg "football" = some { cfg with allow_tennis := false, allow_football := true } ∧
      sportsCommand cfg "both" = some { cfg with allow_tennis := true, allow_football := true } ∧
      handleSports cfg "/sports tennis" =
        some { cfg with allow_tennis := true, allow_football := false } ∧
      handleSports cfg "/sports football" =
        some { cfg with allow_tennis := false, allow_football := true } ∧
      handleSports cfg "/sports both" =
        some { cfg with allow_tennis := true, allow_football := true } ∧
      (∀ (arg : String) (c : Config), sportsCommand cfg arg = some c →
        c.allow_tennis = true → c.allow_football = true → pyLower arg = "both") := by
  intro cfg
  refine ⟨rfl, rfl, rfl, rfl, rfl, rfl, ?_⟩
  intro arg c hsc ht hf
  unfold sportsCommand at hsc
  simp only at hsc
  split at hsc
  · cases hsc; simp at hf
  split at hsc
  · cases hsc; simp at ht
  split at hsc
  next hboth => exact hboth
  next => simp at hsc

/-- C5 (amended): every parsed signal's `stake` equals the configured base
stake times the stake units, rounded to two decimals; and whenever the
unrounded product `base_stake * stakeUnits` is below `min_stake`, the
message is rejected as too small before any fixture lookup influences the
result. -/
theorem c5_amended (cfg : Config) (text u : String)
    (hgate : sportGate cfg text = true)
    (h a : List Char) (hvs : vsSearch text.data = some (h, a))
    (g : BetGroups) (hbet : betSearch text.data = some g)
    (o : ℚ) (ho : pyFloatQ (pyReplaceComma g.odds) = some o)
    (su : ℚ) (hsu : pyFloatQ g.units = some su)
    (hc : Option ℚ) (hhc : handicapFloat g.handicap = some hc) :
    (∀ b : BetInfo, parseSignal cfg text u = ParseResult.ok b →
      b.stake = pyRound2 (cfg.base_stake * su)) ∧
    (cfg.base_stake * su < cfg.min_stake →
      parseSignal cfg text u = ParseResult.stakeTooSmall ∧
      ∀ (fx : Option FixturesData) (ln : Option LineData),
        parse_message cfg text u fx ln = Except.ok none) := by
  have hspec := parseSignal_spec cfg text u hgate h a hvs g hbet o ho su hsu hc hhc
  constructor
  · intro b hb
    rw [hspec] at hb
    split at hb
    · simp at hb
    rcases hm : minOddsVal text with _ | m <;> simp only [hm] at hb
    · simp at hb
    split at hb
    · simp at hb
    · cases hb
      rfl
  · intro hlt
    have hsig : parseSignal cfg text u = ParseResult.stakeTooSmall := by
      rw [hspec, if_pos hlt]
    refine ⟨hsig, fun fx ln => ?_⟩
    unfold parse_message
    rw [hsig]

/-- C6: with all earlier parse stages succeeding, the minimum-odds gate has
an inclusive boundary: quoted odds plus tolerance exactly equal to the
threshold is accepted, strictly below is rejected as `OddsBelowThreshold`,
and an absent `No bet under` phrase makes the threshold 0. -/
theorem c6_odds_boundary (cfg : Config) (text u : String)
    (hgate : sportGate cfg text = true)
    (h a : List Char) (hvs : vsSearch text.data = some (h, a))
    (g : BetGroups) (hbet : betSearch text.data = some g)
    (o : ℚ) (ho : pyFloatQ (pyReplaceComma g.odds) = some o)
    (su : ℚ) (hsu : pyFloatQ g.units = some su)
    (hc : Option ℚ) (hhc : handicapFloat g.handicap = some hc)
    (m : ℚ) (hm : minOddsVal text = some m)
    (hstake : ¬ cfg.base_stake * su < cfg.min_stake) :
    (noBetUnder text.data = none → m = 0) ∧
    (o + cfg.odds_tolerance < m → parseSignal cfg text u = ParseResult.oddsBelowThreshold) ∧
    (o + cfg.odds_tolerance = m →
      parseSignal cfg text u =
        ParseResult.ok (mkBet cfg u (sportOf text) h a (extractTitle text) g o su hc m)) := by
  have hspec := parseSignal_spec cfg text u hgate h a hvs g hbet o ho su hsu hc hhc
  rw [if_neg hstake, hm] at hspec
  simp only at hspec
  refine ⟨?_, ?_, ?_⟩
  · intro hnone
    unfold minOddsVal at hm
    rw [hnone] at hm
    exact (Option.some.inj hm).symm
  · intro hlt
    rw [hspec, if_pos hlt]
  · intro heq
    rw [hspec, if_neg (by rw [heq]; exact lt_irrefl m)]

/-- C7 (amended): the selection side is `home` exactly when the stripped
selection string equals the stripped home-team string under a
case-sensitive comparison, and `away` otherwise. -/
theorem c7_amended (cfg : Config) (text u : String) (b : BetInfo)
    (hres : parseSignal cfg text u = ParseResult.ok b) :
    b.selection_type = if b.home = b.selection then "home" else "away" := by
  obtain ⟨h, a, g, o, su, hc, m, _, _, _, _, _, _, hb⟩ := parseSignal_ok_inv cfg text u b hres
  subst hb
  rfl

/-- In the moneyline branch, the resolver accepts an event exactly on the
case-insensitive team match and checks nothing else. -/
theorem findEvent1_ml_teams (homeL awayL : String) :
    ∀ (evs : List Event) (e : Event),
      findEvent1 "ML Match" homeL awayL evs = some e →
      pyLower (pyStrip (e.home.getD "")) = homeL ∧
        pyLower (pyStrip (e.away.getD "")) = awayL := by
  intro evs
  induction evs with
  | nil => intro e hf; cases hf
  | cons e0 rest ih =>
    intro e hf
    unfold findEvent1 at hf
    rw [if_neg (by decide : ¬ ("ML Match" : String) = "HDP Match")] at hf
    by_cases ht : teamOk homeL awayL e0 = true
    · rw [if_pos ht] at hf
      cases hf
      unfold teamOk at ht
      simp only [Bool.and_eq_true, beq_iff_eq] at ht
      exact ht
    · rw [if_neg ht] at hf
      exact ih e hf

/-- In the spread branch, the resolver accepts an event exactly when its
status is `"O"` and the teams match, parent or not. -/
theorem findEvent1_hdp_open (homeL awayL : String) :
    ∀ (evs : List Event) (e : Event),
      findEvent1 "HDP Match" homeL awayL evs = some e →
      e.status = some "O" ∧ pyLower (pyStrip (e.home.getD "")) = homeL ∧
        pyLower (pyStrip (e.away.getD "")) = awayL := by
  intro evs
  induction evs with
  | nil => intro e hf; cases hf
  | cons e0 rest ih =>
    intro e hf
    unfold findEvent1 at hf
    rw [if_pos (rfl : ("HDP Match" : String) = "HDP Match")] at hf
    by_cases hs : (e0.status == some "O") = true
    · rw [if_pos hs] at hf
      by_cases ht : teamOk homeL awayL e0 = true
      · rw [if_pos ht] at hf
        cases hf
        unfold teamOk at ht
        simp only [Bool.and_eq_true, beq_iff_eq] at ht
        simp only [beq_iff_eq] at hs
        exact ⟨hs, ht⟩
      · rw [if_neg ht] at hf
        exact ih e hf
    · rw [if_neg hs] at hf
      exact ih e hf

/-- The moneyline resolver is invariant under arbitrary rewriting of every
event's `parentId`: the parent id plays no role in whether an event is
matched. -/
theorem findEvent1_ml_parent_irrelevant (homeL awayL : String) (f : Event → Option Nat) :
    ∀ evs : List Event,
      findEvent1 "ML Match" homeL awayL (evs.map (fun e => { e with parentId := f e })) =
        (findEvent1 "ML Match" homeL awayL evs).map (fun e => { e with parentId := f e }) := by
  intro evs
  induction evs with
  | nil => rfl
  | cons e0 rest ih =>
    simp only [List.map_cons]
    unfold findEvent1
    rw [if_neg (by decide : ¬ ("ML Match" : String) = "HDP Match"),
      if_neg (by decide : ¬ ("ML Match" : String) = "HDP Match")]
    have hto : teamOk homeL awayL { e0 with parentId := f e0 } = teamOk homeL awayL e0 := rfl
    rw [hto]
    by_cases ht : teamOk homeL awayL e0 = true
    · rw [if_pos ht, if_pos ht]
      rfl
    · rw [if_neg ht, if_neg ht]
      exact ih

/-- A league whose name matches and whose event list has a first match with
a truthy id makes the resolver stop there and record that event's ids. -/
theorem resolveLoop1_first_match (mt homeL awayL ti : String) (lg : League) (e : Event)
    (hname : pyLower (pyStrip (lg.name.getD "")) = pyLower ti)
    (hfind : findEvent1 mt homeL awayL lg.events = some e)
    (htr : truthyN e.id = true) :
    resolveLoop1 mt homeL awayL (some ti) [lg] (none, none, none) =
      Except.ok (e.id, lg.id, e.parentId) := by
  unfold resolveLoop1
  simp only
  rw [if_pos hname]
  simp only [hfind]
  rw [if_pos htr]

/-- C3 (amended): in `parse_message`'s resolver the moneyline branch matches
an event exactly on the case-insensitive home/away comparison and is
completely independent of `parentId` (which is merely recorded), while the
spread branch additionally requires the event status to be `"O"`; the first
match in a name-matching league wins. -/
theorem c3_amended :
    (∀ (homeL awayL : String) (evs : List Event) (e : Event),
        findEvent1 "ML Match" homeL awayL evs = some e →
        pyLower (pyStrip (e.home.getD "")) = homeL ∧
          pyLower (pyStrip (e.away.getD "")) = awayL) ∧
    (∀ (homeL awayL : String) (f : Event → Option Nat) (evs : List Event),
        findEvent1 "ML Match" homeL awayL (evs.map (fun e => { e with parentId := f e })) =
          (findEvent1 "ML Match" homeL awayL evs).map (fun e => { e with parentId := f e })) ∧
    (∀ (homeL awayL : String) (evs : List Event) (e : Event),
        findEvent1 "HDP Match" homeL awayL evs = some e →
        e.status = some "O" ∧ pyLower (pyStrip (e.home.getD "")) = homeL ∧
          pyLower (pyStrip (e.away.getD "")) = awayL) ∧
    (∀ (mt homeL awayL ti : String) (lg : League) (e : Event),
        pyLower (pyStrip (lg.name.getD "")) = pyLower ti →
        findEvent1 mt homeL awayL lg.events = some e →
        truthyN e.id = true →
        resolveLoop1 mt homeL awayL (some ti) [lg] (none, none, none) =
          Except.ok (e.id, lg.id, e.parentId)) :=
  ⟨findEvent1_ml_teams, findEvent1_ml_parent_irrelevant, findEvent1_hdp_open,
   resolveLoop1_first_match⟩

/-- C1 (counterexample): the exact Scenario A text contains none of the
sport keywords `Tennis`, `Football`, `Soccer`, so `parse_message` rejects
it as sport-not-allowed even though both sports are enabled and the base
stake is 5; it never returns a signal. -/
theorem c1_counterexample :
    parseSignal cfgD scenarioAText "u" = ParseResult.sportNotAllowed ∧
    cfgD.base_stake = 5 ∧ cfgD.allow_tennis = true ∧ cfgD.allow_football = true :=
  ⟨rfl, rfl, rfl, rfl⟩


/-- C1 (amended): once the message carries a sport keyword (a `Tennis` line
appended), parsing returns the Scenario A signal: stake 10.00, selection
`Roger Federer`, home side, moneyline market. -/
theorem c1_amended :
    parseSignal cfgD scenarioATennis "u" = ParseResult.ok betScenarioA ∧
    betScenarioA.stake = 10 ∧
    betScenarioA.selection = "Roger Federer" ∧
    betScenarioA.selection_type = "home" ∧
    betScenarioA.market_type = "ML Match" :=
  ⟨by with_unfolding_all rfl, rfl, rfl, rfl, rfl⟩

/-- C2 (counterexample): a signal validated at parse time with lineId 111
and eventId 5 is submitted with lineId 222 and eventId 7 — the values of
the fresh lookup done inside `place_bet` — so the placement request does
not carry the parse-time validated ids. -/
theorem c2_counterexample :
    place_bet bi2 fx2 od2 = some payload2 ∧
    bi2.lineId = some 111 ∧ payload2.lineId = some 222 ∧
    bi2.eventId = some 5 ∧ payload2.eventId = some 7 :=
  ⟨by with_unfolding_all rfl, rfl, rfl, rfl, rfl⟩

/-- C2 (witness): the amended theorem applied to the concrete run. -/
theorem c2_witness :
    (check_line_and_validate bi2 fx2 od2).2 = true ∧
    payload2.lineId = (check_line_and_validate bi2 fx2 od2).1.lineId ∧
    payload2.eventId = (check_line_and_validate bi2 fx2 od2).1.eventId :=
  c2_amended bi2 fx2 od2 payload2 (by with_unfolding_all rfl)

/-- C3 (counterexample): for a moneyline signal the resolver of
`parse_message` matches an event whose `parentId` is 55 (nonzero) — and
whose status is not even open — refuting the claim that moneyline matches
require a top-level event. -/
theorem c3_counterexample :
    resolveLoop1 "ML Match" "roger federer" "rafael nadal" (some "ATP")
      [cex3_league] (none, none, none) = Except.ok (some 99, some 7, some 55) ∧
    cex3_event.parentId = some 55 ∧
    cex3_event.status = some "I" :=
  ⟨by with_unfolding_all rfl, rfl, rfl⟩

/-- C3 (witness): the amended theorem applied to the concrete event. -/
theorem c3_witness :
    (pyLower (pyStrip (cex3_event.home.getD "")) = "roger federer" ∧
      pyLower (pyStrip (cex3_event.away.getD "")) = "rafael nadal") ∧
    resolveLoop1 "ML Match" "roger federer" "rafael nadal" (some "ATP")
      [cex3_league] (none, none, none) =
      Except.ok (cex3_event.id, cex3_league.id, cex3_event.parentId) :=
  ⟨c3_amended.1 "roger federer" "rafael nadal" [cex3_event] cex3_event
      (by with_unfolding_all rfl),
   c3_amended.2.2.2 "ML Match" "roger federer" "rafael nadal" "ATP" cex3_league cex3_event
      (by with_unfolding_all rfl) (by with_unfolding_all rfl) (by with_unfolding_all rfl)⟩

/-- C4 (witness): the stability theorem applied to a concrete end-to-end
run and to the concrete placement run. -/
theorem c4_witness :
    betResolvedA.uuid = "u" ∧
    (check_line_and_validate bi2 fx2 od2).1.uuid = bi2.uuid ∧
    payload2.uniqueRequestId = bi2.uuid :=
  ⟨c4_requestId_stable.1 cfgD scenarioATennis "u" fxW lnW betResolvedA
      (by with_unfolding_all rfl),
   c4_requestId_stable.2.1 bi2 fx2 od2,
   c4_requestId_stable.2.2 bi2 fx2 od2 payload2 (by with_unfolding_all rfl)⟩

/-- C5 (counterexample): with `min_stake = 5.004`, the message `text5`
(base stake 5.004, one unit) is accepted — the unrounded product 5.004 is
not below the minimum — yet its recorded `stake` is the rounded 5.00,
which is strictly below `min_stake`; so a message whose (rounded)
stakeAmount is below the minimum is not rejected. -/
theorem c5_counterexample :
    parseSignal cfg5 text5 "u" = ParseResult.ok bet5 ∧
    bet5.stake < cfg5.min_stake :=
  ⟨by with_unfolding_all rfl, by with_unfolding_all decide⟩

/-- C5 (witness): the amended theorem applied to a tip of 0.1 units. -/
theorem c5_witness :
    parseSignal cfgD text5w "u" = ParseResult.stakeTooSmall ∧
    parse_message cfgD text5w "u" fx9 none = Except.ok none := by
  have h5 := (c5_amended cfgD text5w "u" rfl "A".data "B".data (by with_unfolding_all rfl)
      g5 (by with_unfolding_all rfl) 2 (by with_unfolding_all rfl) (1/10)
      (by with_unfolding_all rfl) none rfl).2 (by norm_num [cfgD])
  exact ⟨h5.1, h5.2 fx9 none⟩

/-- C6 (witness): the boundary theorem applied at the exact boundary:
quoted odds 1.85 plus tolerance 0.15 equals the threshold 2, and the
signal is accepted. -/
theorem c6_witness :
    parseSignal cfg6 text6 "u" =
      ParseResult.ok (mkBet cfg6 "u" (sportOf text6) "A".data "B".data (extractTitle text6)
        g6 (37/20) 2 none 2) :=
  (c6_odds_boundary cfg6 text6 "u" rfl "A".data "B".data (by with_unfolding_all rfl)
      g6 (by with_unfolding_all rfl) (37/20) (by with_unfolding_all rfl) 2
      (by with_unfolding_all rfl) none rfl 2 (by with_unfolding_all rfl)
      (by norm_num [cfg6])).2.2 (by norm_num [cfg6])

/-- C7 (counterexample): a selection differing from the home team only by
letter case is classified as `away`, refuting the claimed case-insensitive
comparison. -/
theorem c7_counterexample :
    parseSignal cfgD text7 "u" = ParseResult.ok bet7 ∧
    pyLower bet7.selection = pyLower bet7.home ∧
    bet7.selection_type = "away" :=
  ⟨by with_unfolding_all rfl, rfl, rfl⟩

/-- C7 (witness): the amended theorem applied to the concrete signal. -/
theorem c7_witness :
    bet7.selection_type = if bet7.home = bet7.selection then "home" else "away" :=
  c7_amended cfgD text7 "u" bet7 (by with_unfolding_all rfl)

/-- C8: a message whose title line is a clock time parses to a signal with
an unset title, and resolution against a fixtures catalog that contains at
least one league raises (AttributeError on `None.lower()`) instead of
returning the EventNotFound rejection; with an empty catalog the same
signal is rejected normally. -/
theorem c8_crash_on_unset_title :
    parseSignal cfgD text8 "u" = ParseResult.ok bet8 ∧
    bet8.title = none ∧
    parse_message cfgD text8 "u" fx8 none = Except.error () ∧
    parse_message cfgD text8 "u" (some ⟨[]⟩) none = Except.ok none :=
  ⟨by with_unfolding_all rfl, rfl, by with_unfolding_all rfl, by with_unfolding_all rfl⟩

/-- C9 (counterexample): two messages rejected for different reasons
(sport not allowed vs stake too small) produce the same value `None` at
the caller of `parse_message` — the reasons are not distinguishable from
the returned results. -/
theorem c9_counterexample :
    parseSignal cfgD text9a "u" = ParseResult.sportNotAllowed ∧
    parseSignal cfgD text5w "u" = ParseResult.stakeTooSmall ∧
    parse_message cfgD text9a "u" fx9 none = Except.ok none ∧
    parse_message cfgD text5w "u" fx9 none = Except.ok none ∧
    parse_message cfgD text9a "u" fx9 none = parse_message cfgD text5w "u" fx9 none :=
  ⟨rfl, by with_unfolding_all rfl, rfl, by with_unfolding_all rfl, by with_unfolding_all rfl⟩

/-- C9 (witness): the amended theorem applied to two concretely rejected
messages with different network responses. -/
theorem c9_witness :
    parse_message cfgD text9a "u" fx9 none = parse_message cfgD text5w "u2" fxW lnW :=
  c9_amended cfgD "u" "u2" text9a text5w fx9 fxW none lnW
    (by exact trivial) (by with_unfolding_all exact trivial)

/-- C10 (witness): the command theorem applied to the default config and
to the uppercase argument `BOTH`. -/
theorem c10_witness :
    sportsCommand cfgD "tennis" =
      some { cfgD with allow_tennis := true, allow_football := false } ∧
    pyLower "BOTH" = "both" :=
  ⟨(c10_sports_command cfgD).1,
   (c10_sports_command cfgD).2.2.2.2.2.2 "BOTH"
     { cfgD with allow_tennis := true, allow_football := true } rfl rfl rfl⟩
